import Mathlib

set_option maxRecDepth 100000

/-!
Shallow embedding of the text-to-CAD repository's validation core
(`src/main.py` and `src/shape_schemas.py`).

The embedding models:
* JSON values (`JValue`) as produced by `json.loads`, with numbers kept as
  exact decimals (`DecimalNum`) — mantissa over a power of ten.  Exponent
  notation in JSON numbers is not modelled (unused by the repository's data).
* Python dicts as association lists with unique keys (`Dims`), where insertion
  of an existing key overwrites in place and new keys append at the end.
* The pydantic-v2 models of the source: per-shape dimension schemas as lists
  of field specifications (pydantic's default config ignores unknown keys and
  does not coerce numbers to strings), the circle model validator, the
  `BaseShape` / `Feature` / `CADObject` models, and `model_dump`.
* The parse-validate-fallback pipeline of `main.py` (`validate_node`,
  `fallback_node`, the conditional edge), including the fact that only
  `json.JSONDecodeError`, `ValidationError` and `ValueError` are caught, so a
  `TypeError` from `CADObject(**parsed)` on a non-dict escapes to the caller.
-/

/-- Exact decimal number: `mantissa / 10 ^ exp10`.  Models Python ints
(`exp10 = 0`) and the float values arising from parsing short decimal strings,
where float arithmetic on such values is exact. -/
structure DecimalNum where
  mantissa : Int
  exp10 : Nat
deriving DecidableEq

/-- Doubling, as in the circle validator's `2 * r`. -/
def DecimalNum.double (d : DecimalNum) : DecimalNum :=
  ⟨2 * d.mantissa, d.exp10⟩

/-- Strip factors of ten shared by mantissa and exponent. -/
def DecimalNum.normAux : Int → Nat → DecimalNum
  | m, 0 => ⟨m, 0⟩
  | m, e + 1 => if m % 10 == 0 then DecimalNum.normAux (m / 10) e else ⟨m, e + 1⟩

/-- Canonical form of a decimal (no trailing zero fraction digits). -/
def DecimalNum.norm (d : DecimalNum) : DecimalNum :=
  DecimalNum.normAux d.mantissa d.exp10

/-- Decimal digits of `n`, left padded with zeros to the given width. -/
def natDigitsPadded (n : Nat) (width : Nat) : String :=
  let s := toString n
  if s.length < width then String.mk (List.replicate (width - s.length) '0') ++ s else s

/-- Model of Python's float formatting (`repr` / f-string) on decimal values:
an integral value prints with a trailing `.0`, otherwise the shortest decimal
expansion is printed.  Faithful for the short decimal values this code
produces. -/
def pyFloatRepr (d0 : DecimalNum) : String :=
  let d := d0.norm
  if d.exp10 == 0 then toString d.mantissa ++ ".0"
  else
    let sign := if d.mantissa < 0 then "-" else ""
    let digits := natDigitsPadded d.mantissa.natAbs (d.exp10 + 1)
    let cut := digits.length - d.exp10
    sign ++ digits.take cut ++ "." ++ digits.drop cut

/-- Numeric value of a list of decimal digit characters. -/
def digitsVal (cs : List Char) : Nat :=
  cs.foldl (fun a c => a * 10 + (c.toNat - 48)) 0

/-- Split an optional numeric sign off the front of a character list,
returning whether the number is negated and the remaining characters. -/
def splitSign (allowPlus : Bool) (cs : List Char) : Bool × List Char :=
  match cs with
  | c :: r =>
    if c == '-' then (true, r)
    else if allowPlus && c == '+' then (false, r)
    else (false, cs)
  | [] => (false, cs)

/-- Model of Python's `float(s)` on an already-stripped string: optional sign,
then decimal digits with an optional point (at least one digit overall).
`inf`/`nan`/exponent forms are not modelled (unused by the repository). -/
def parsePyFloat (s : String) : Option DecimalNum :=
  let cs := s.data
  let signed := splitSign true cs
  let neg := signed.1
  let cs1 := signed.2
  let ip := cs1.takeWhile Char.isDigit
  let r1 := cs1.dropWhile Char.isDigit
  let mk : Nat → Nat → Nat → DecimalNum := fun ipv fpv fl =>
    let m : Int := Int.ofNat (ipv * 10 ^ fl + fpv)
    ⟨if neg then -m else m, fl⟩
  match r1 with
  | [] => if ip.isEmpty then none else some (mk (digitsVal ip) 0 0)
  | '.' :: r2 =>
    let fp := r2.takeWhile Char.isDigit
    let r3 := r2.dropWhile Char.isDigit
    if r3.isEmpty && !(ip.isEmpty && fp.isEmpty) then
      some (mk (digitsVal ip) (digitsVal fp) fp.length)
    else none
  | _ => none

/-- JSON value, as returned by `json.loads`. -/
inductive JValue where
  | null
  | bool (b : Bool)
  | num (n : DecimalNum)
  | str (s : String)
  | arr (elems : List JValue)
  | obj (entries : List (String × JValue))

/-- A Python dict with string keys, as an association list in insertion
order with unique keys. -/
abbrev Dims := List (String × JValue)

/-- Dict lookup (first matching key; keys are unique). -/
def dictLookup {α : Type} : List (String × α) → String → Option α
  | [], _ => none
  | (k2, v) :: rest, k => if k2 == k then some v else dictLookup rest k

/-- Dict key membership. -/
def containsKeyB {α : Type} (l : List (String × α)) (k : String) : Bool :=
  l.any (fun p => p.1 == k)

/-- Dict key removal, as in Python's `dict.pop`. -/
def dictErase {α : Type} (l : List (String × α)) (k : String) : List (String × α) :=
  l.filter (fun p => !(p.1 == k))

/-- Dict insertion: overwriting an existing key keeps its position, a new key
appends at the end (Python dict semantics, used when `json.loads` builds an
object and for `dims[k] = v`). -/
def insertKV (d : Dims) (k : String) (v : JValue) : Dims :=
  if containsKeyB d k then d.map (fun p => if p.1 == k then (k, v) else p)
  else d ++ [(k, v)]

/-- Sequential dict construction from parsed members (later duplicate keys
overwrite earlier ones, as in `json.loads`). -/
def dedupKV (l : List (String × JValue)) : Dims :=
  l.foldl (fun d p => insertKV d p.1 p.2) []

/-- Character codes `json.loads` treats as insignificant whitespace
(space, tab, line feed, carriage return). -/
def jsonWsCodes : List Nat := [32, 9, 10, 13]

/-- Skip JSON whitespace. -/
def skipWs : List Char → List Char
  | c :: rest => if jsonWsCodes.contains c.toNat then skipWs rest else c :: rest
  | [] => []

/-- The JSON string escape table: escape letter paired with the character it
denotes (the `\\u` form is not modelled). -/
def escPairs : List (Char × Char) :=
  [('"', '"'), ('\\', '\\'), ('/', '/'), ('n', Char.ofNat 10), ('t', Char.ofNat 9),
   ('r', Char.ofNat 13), ('b', Char.ofNat 8), ('f', Char.ofNat 12)]

/-- Resolve one JSON string escape character. -/
def escChar (c : Char) : Option Char :=
  (escPairs.find? (fun p => p.1 == c)).map Prod.snd

/-- Parse the body of a JSON string literal (after the opening quote). -/
def parseStringLit : List Char → Option (String × List Char)
  | [] => none
  | '"' :: rest => some ("", rest)
  | '\\' :: e :: rest =>
    match escChar e with
    | some c => (parseStringLit rest).map (fun p => (String.mk (c :: p.1.data), p.2))
    | none => none
  | c :: rest => (parseStringLit rest).map (fun p => (String.mk (c :: p.1.data), p.2))

/-- Parse a JSON number (decimal forms; exponent notation not modelled;
JSON allows only a leading minus, no plus). -/
def parseNumberLit (cs : List Char) : Option (DecimalNum × List Char) :=
  let signed := splitSign false cs
  let neg := signed.1
  let cs1 := signed.2
  let ip := cs1.takeWhile Char.isDigit
  let r1 := cs1.dropWhile Char.isDigit
  if ip.isEmpty then none
  else
    match r1 with
    | '.' :: r2 =>
      let fp := r2.takeWhile Char.isDigit
      let r3 := r2.dropWhile Char.isDigit
      if fp.isEmpty then none
      else
        let m : Int := Int.ofNat (digitsVal ip * 10 ^ fp.length + digitsVal fp)
        some (⟨if neg then -m else m, fp.length⟩, r3)
    | _ =>
      let m : Int := Int.ofNat (digitsVal ip)
      some (⟨if neg then -m else m, 0⟩, r1)

/-- Whether the second list is a prefix of the first. -/
def listStartsWith : List Char → List Char → Bool
  | _, [] => true
  | [], _ :: _ => false
  | c :: cs, p :: ps => c == p && listStartsWith cs ps

mutual

/-- Fuel-indexed JSON value parser (model of `json.loads`). -/
def parseValue : Nat → List Char → Option (JValue × List Char)
  | 0, _ => none
  | Nat.succ fuel, cs =>
    let cs0 := skipWs cs
    if listStartsWith cs0 "null".data then some (JValue.null, cs0.drop 4)
    else if listStartsWith cs0 "true".data then some (JValue.bool true, cs0.drop 4)
    else if listStartsWith cs0 "false".data then some (JValue.bool false, cs0.drop 5)
    else
      match cs0 with
      | '"' :: rest => (parseStringLit rest).map (fun p => (JValue.str p.1, p.2))
      | '[' :: rest =>
        (match skipWs rest with
         | ']' :: rest2 => some (JValue.arr [], rest2)
         | cs2 => (parseItems fuel cs2).map (fun p => (JValue.arr p.1, p.2)))
      | '{' :: rest =>
        (match skipWs rest with
         | '}' :: rest2 => some (JValue.obj [], rest2)
         | cs2 => (parseMembers fuel cs2).map (fun p => (JValue.obj (dedupKV p.1), p.2)))
      | cs1 => (parseNumberLit cs1).map (fun p => (JValue.num p.1, p.2))

/-- Parse the comma-separated items of a non-empty JSON array. -/
def parseItems : Nat → List Char → Option (List JValue × List Char)
  | 0, _ => none
  | Nat.succ fuel, cs =>
    match parseValue fuel cs with
    | none => none
    | some (v, rest) =>
      match skipWs rest with
      | ',' :: rest2 =>
        (parseItems fuel rest2).map (fun p => (v :: p.1, p.2))
      | ']' :: rest2 => some ([v], rest2)
      | _ => none

/-- Parse the comma-separated members of a non-empty JSON object. -/
def parseMembers : Nat → List Char → Option (List (String × JValue) × List Char)
  | 0, _ => none
  | Nat.succ fuel, cs =>
    match skipWs cs with
    | '"' :: rest =>
      match parseStringLit rest with
      | none => none
      | some (k, rest1) =>
        match skipWs rest1 with
        | ':' :: rest2 =>
          match parseValue fuel rest2 with
          | none => none
          | some (v, rest3) =>
            match skipWs rest3 with
            | ',' :: rest4 =>
              (parseMembers fuel rest4).map (fun p => ((k, v) :: p.1, p.2))
            | '}' :: rest4 => some ([(k, v)], rest4)
            | _ => none
        | _ => none
    | _ => none

end

/-- Model of `json.loads`: `none` models a raised `json.JSONDecodeError`. -/
def json_loads (s : String) : Option JValue :=
  match parseValue (s.length + 2) s.data with
  | some (v, rest) => if (skipWs rest).isEmpty then some v else none
  | none => none

/-- Validation error, modelling the content of pydantic `ValidationError`
entries and `ValueError` messages raised by the source's validators. -/
inductive ValErr where
  | missingField (model field : String)
  | wrongType (model field : String)
  | valueError (msg : String)
  | unsupportedShape (ty : String)
deriving DecidableEq

/-- Kind of a pydantic field in the shape dimension models of
`shape_schemas.py`: `str`, `int`, or `dict` annotations. -/
inductive FieldKind where
  | str
  | int
  | dict
deriving DecidableEq

/-- One declared field of a pydantic shape dimension model. -/
structure FieldSpec where
  name : String
  kind : FieldKind
  required : Bool
deriving DecidableEq

/-- Check one declared field against a raw dimension mapping, following
pydantic v2 defaults: a required field must be present with the declared
kind; an optional field may be absent or `null`; `str` fields accept only
strings (no number-to-string coercion); `int` fields accept JSON integers;
`dict` fields accept JSON objects.  Unknown keys of the mapping are not
inspected at all (pydantic's default `extra` behaviour is `ignore`). -/
def checkField (model : String) (d : Dims) (f : FieldSpec) : List ValErr :=
  match dictLookup d f.name with
  | none => if f.required then [ValErr.missingField model f.name] else []
  | some v =>
    match f.kind, v with
    | FieldKind.str, JValue.str _ => []
    | FieldKind.str, JValue.null => if f.required then [ValErr.wrongType model f.name] else []
    | FieldKind.str, _ => [ValErr.wrongType model f.name]
    | FieldKind.int, JValue.num n => if n.exp10 == 0 then [] else [ValErr.wrongType model f.name]
    | FieldKind.int, _ => [ValErr.wrongType model f.name]
    | FieldKind.dict, JValue.obj _ => []
    | FieldKind.dict, _ => [ValErr.wrongType model f.name]

/-- Run all field checks of a model over a raw dimension mapping. -/
def checkFields (model : String) (fields : List FieldSpec) (d : Dims) : List ValErr :=
  fields.foldr (fun f acc => checkField model d f ++ acc) []

/-- Fields of `RectangleDimensions`: `width`, `height`, `thickness`, all
required strings. -/
def RectangleDimensions.fieldSpecs : List FieldSpec :=
  [⟨"width", FieldKind.str, true⟩, ⟨"height", FieldKind.str, true⟩,
   ⟨"thickness", FieldKind.str, true⟩]

/-- Fields of `CircleDimensions`: optional `diameter` and `radius`, required
`thickness`. -/
def CircleDimensions.fieldSpecs : List FieldSpec :=
  [⟨"diameter", FieldKind.str, false⟩, ⟨"radius", FieldKind.str, false⟩,
   ⟨"thickness", FieldKind.str, true⟩]

/-- Fields of `TriangleDimensions`. -/
def TriangleDimensions.fieldSpecs : List FieldSpec :=
  [⟨"side_1", FieldKind.str, true⟩, ⟨"side_2", FieldKind.str, true⟩,
   ⟨"side_3", FieldKind.str, true⟩, ⟨"thickness", FieldKind.str, true⟩]

/-- Fields of `PolygonDimensions` (`number_of_sides` is an `int`). -/
def PolygonDimensions.fieldSpecs : List FieldSpec :=
  [⟨"number_of_sides", FieldKind.int, true⟩, ⟨"side_length", FieldKind.str, true⟩,
   ⟨"thickness", FieldKind.str, true⟩]

/-- Fields of `EllipseDimensions`. -/
def EllipseDimensions.fieldSpecs : List FieldSpec :=
  [⟨"major_axis", FieldKind.str, true⟩, ⟨"minor_axis", FieldKind.str, true⟩,
   ⟨"thickness", FieldKind.str, true⟩]

/-- Fields of `SlotDimensions`. -/
def SlotDimensions.fieldSpecs : List FieldSpec :=
  [⟨"length", FieldKind.str, true⟩, ⟨"width", FieldKind.str, true⟩,
   ⟨"corner_radius", FieldKind.str, true⟩, ⟨"thickness", FieldKind.str, true⟩]

/-- Fields of `ArcDimensions`. -/
def ArcDimensions.fieldSpecs : List FieldSpec :=
  [⟨"radius", FieldKind.str, true⟩, ⟨"angle", FieldKind.str, true⟩,
   ⟨"thickness", FieldKind.str, true⟩]

/-- Fields of `BoxDimensions`. -/
def BoxDimensions.fieldSpecs : List FieldSpec :=
  [⟨"width", FieldKind.str, true⟩, ⟨"height", FieldKind.str, true⟩,
   ⟨"depth", FieldKind.str, true⟩]

/-- Fields of `CylinderDimensions`. -/
def CylinderDimensions.fieldSpecs : List FieldSpec :=
  [⟨"diameter", FieldKind.str, true⟩, ⟨"height", FieldKind.str, true⟩]

/-- Fields of `ConeDimensions`. -/
def ConeDimensions.fieldSpecs : List FieldSpec :=
  [⟨"base_diameter", FieldKind.str, true⟩, ⟨"top_diameter", FieldKind.str, true⟩,
   ⟨"height", FieldKind.str, true⟩]

/-- Fields of `SphereDimensions`. -/
def SphereDimensions.fieldSpecs : List FieldSpec :=
  [⟨"diameter", FieldKind.str, true⟩]

/-- Fields of `TorusDimensions`. -/
def TorusDimensions.fieldSpecs : List FieldSpec :=
  [⟨"major_radius", FieldKind.str, true⟩, ⟨"minor_radius", FieldKind.str, true⟩]

/-- Fields of `PyramidDimensions` (`base_dimensions` is a plain `dict`,
accepted as an opaque mapping). -/
def PyramidDimensions.fieldSpecs : List FieldSpec :=
  [⟨"base_shape", FieldKind.str, true⟩, ⟨"base_dimensions", FieldKind.dict, true⟩,
   ⟨"height", FieldKind.str, true⟩]

/-- The `shape_schemas` dispatch table of `main.py`: shape type string to
dimension model. -/
def shape_schemas : List (String × List FieldSpec) :=
  [("rectangle", RectangleDimensions.fieldSpecs),
   ("circle", CircleDimensions.fieldSpecs),
   ("triangle", TriangleDimensions.fieldSpecs),
   ("polygon", PolygonDimensions.fieldSpecs),
   ("ellipse", EllipseDimensions.fieldSpecs),
   ("slot", SlotDimensions.fieldSpecs),
   ("arc", ArcDimensions.fieldSpecs),
   ("box", BoxDimensions.fieldSpecs),
   ("cylinder", CylinderDimensions.fieldSpecs),
   ("cone", ConeDimensions.fieldSpecs),
   ("sphere", SphereDimensions.fieldSpecs),
   ("torus", TorusDimensions.fieldSpecs),
   ("pyramid", PyramidDimensions.fieldSpecs)]

/-- The thirteen supported shape type names, in table order. -/
def supportedShapeNames : List String :=
  shape_schemas.map Prod.fst

/-- The required field names of a supported shape type. -/
def requiredFieldNames (ty : String) : List String :=
  match dictLookup shape_schemas ty with
  | some fs => (fs.filter (fun f => f.required)).map (fun f => f.name)
  | none => []

/-- Fuel-indexed worker for `pyReplace` (the pattern is non-empty, so each
step consumes at least one character). -/
def pyReplaceAux : Nat → List Char → List Char → List Char → List Char
  | 0, _, _, _ => []
  | _, [], _, _ => []
  | Nat.succ fuel, c :: rest, pat, rep =>
    if listStartsWith (c :: rest) pat then
      rep ++ pyReplaceAux fuel ((c :: rest).drop pat.length) pat rep
    else c :: pyReplaceAux fuel rest pat rep

/-- Model of Python's `str.replace`: replace every (left-to-right,
non-overlapping) occurrence of `pat` by `rep`. -/
def pyReplace (s pat rep : String) : String :=
  if pat.isEmpty then s
  else String.mk (pyReplaceAux (s.length + 1) s.data pat.data rep.data)

/-- Character codes of the ASCII whitespace recognised by Python's
`str.strip` (space, tab, line feed, carriage return, vertical tab, form
feed). -/
def pyWsCodes : List Nat := [32, 9, 10, 13, 11, 12]

/-- Python whitespace recognised by `str.strip`. -/
def isPyWs (c : Char) : Bool := pyWsCodes.contains c.toNat

/-- Model of Python's `str.strip()`: remove leading and trailing
whitespace. -/
def pyStrip (s : String) : String :=
  String.mk (((s.data.dropWhile isPyWs).reverse.dropWhile isPyWs).reverse)

/-- The validated `CircleDimensions` pydantic instance. -/
structure CircleDimensions where
  diameter : Option String
  radius : Option String
  thickness : String
deriving DecidableEq

/-- Python truthiness of an optional string field (`None` and the empty
string are falsy). -/
def truthyOpt : Option String → Bool
  | none => false
  | some s => !(s == "")

/-- The string value of a field of a raw mapping, when present. -/
def getOptStrField (d : Dims) (k : String) : Option String :=
  match dictLookup d k with
  | some (JValue.str s) => some s
  | _ => none

/-- The `check_radius_or_diameter` model validator of `CircleDimensions`:
require at least one of `radius`/`diameter` (by Python truthiness); when only
`radius` is given, parse it (strip every `"mm"`, then strip whitespace, then
`float(...)`) and set `diameter` to `2 * r` formatted with an `"mm"` suffix. -/
def CircleDimensions.check_radius_or_diameter (c : CircleDimensions) :
    Except (List ValErr) CircleDimensions :=
  if !truthyOpt c.diameter && !truthyOpt c.radius then
    Except.error [ValErr.valueError "Either radius or diameter must be provided."]
  else if !truthyOpt c.diameter && truthyOpt c.radius then
    match parsePyFloat (pyStrip (pyReplace (c.radius.getD "") "mm" "")) with
    | some r =>
      Except.ok { c with diameter := some (pyFloatRepr (DecimalNum.double r) ++ "mm") }
    | none => Except.error [ValErr.valueError "Could not parse radius value"]
  else Except.ok c

/-- Construction of `CircleDimensions(**dims)`: the declared fields are read
from the raw mapping, then the model validator runs.  Field errors (collected
by pydantic) suppress the model validator. -/
def CircleDimensions.validate (d : Dims) : Except (List ValErr) CircleDimensions :=
  let es := checkFields "circle" CircleDimensions.fieldSpecs d
  if es.isEmpty then
    CircleDimensions.check_radius_or_diameter
      ⟨getOptStrField d "diameter", getOptStrField d "radius",
       (getOptStrField d "thickness").getD ""⟩
  else Except.error es

/-- The validated `BaseShape` pydantic instance: the raw `dimensions` dict is
stored as-is (after the in-place normalization); the shape-schema instance
built during validation is discarded. -/
structure BaseShape where
  type : String
  dimensions : Dims

/-- The `extrusion` → `thickness` normalization performed in place by
`BaseShape.validate_shape`: when `extrusion` is present and `thickness`
absent, `dims["thickness"] = dims.pop("extrusion")` removes `extrusion` and
appends `thickness` at the end; otherwise the dict is untouched. -/
def normalize_field_names (d : Dims) : Dims :=
  if containsKeyB d "extrusion" && !containsKeyB d "thickness" then
    dictErase d "extrusion" ++ [("thickness", (dictLookup d "extrusion").getD JValue.null)]
  else d

/-- The `validate_shape` model validator of `BaseShape`: normalize the
dimensions in place, reject unsupported shape types, then build the matching
shape-schema instance (discarding it on success). -/
def BaseShape.validate_shape (ty : String) (dims0 : Dims) :
    Except (List ValErr) BaseShape :=
  let dims := normalize_field_names dims0
  match dictLookup shape_schemas ty with
  | none => Except.error [ValErr.unsupportedShape ty]
  | some fspecs =>
    if ty == "circle" then
      match CircleDimensions.validate dims with
      | Except.ok _ => Except.ok ⟨ty, dims⟩
      | Except.error es => Except.error es
    else
      let es := checkFields ty fspecs dims
      if es.isEmpty then Except.ok ⟨ty, dims⟩ else Except.error es

/-- Construction of `BaseShape(**entries)`: the `type` field must be a
string and `dimensions` a dict; then the `validate_shape` model validator
runs. -/
def BaseShape.fromFields (d : Dims) : Except (List ValErr) BaseShape := do
  let ty ← match dictLookup d "type" with
    | some (JValue.str s) => Except.ok s
    | some _ => Except.error [ValErr.wrongType "BaseShape" "type"]
    | none => Except.error [ValErr.missingField "BaseShape" "type"]
  let dims ← match dictLookup d "dimensions" with
    | some (JValue.obj entries) => Except.ok entries
    | some _ => Except.error [ValErr.wrongType "BaseShape" "dimensions"]
    | none => Except.error [ValErr.missingField "BaseShape" "dimensions"]
  BaseShape.validate_shape ty dims

/-- The `Feature` pydantic instance: only `type` is required; every other
field defaults to `None`. -/
structure Feature where
  type : String
  location : Option String
  dimensions : Option Dims
  shape : Option String
  position : Option String
  diameter : Option String

/-- An `Optional[str]` feature field: absent or `null` gives `None`. -/
def getOptStrOrErr (d : Dims) (model field : String) :
    Except (List ValErr) (Option String) :=
  match dictLookup d field with
  | none => Except.ok none
  | some JValue.null => Except.ok none
  | some (JValue.str s) => Except.ok (some s)
  | some _ => Except.error [ValErr.wrongType model field]

/-- An `Optional[dict]` feature field: absent or `null` gives `None`. -/
def getOptDictOrErr (d : Dims) (model field : String) :
    Except (List ValErr) (Option Dims) :=
  match dictLookup d field with
  | none => Except.ok none
  | some JValue.null => Except.ok none
  | some (JValue.obj entries) => Except.ok (some entries)
  | some _ => Except.error [ValErr.wrongType model field]

/-- Construction of `Feature(**entry)`: the entry must be a dict with a
string `type`; the remaining fields are optional. -/
def Feature.fromJ (v : JValue) : Except (List ValErr) Feature :=
  match v with
  | JValue.obj d => do
    let ty ← match dictLookup d "type" with
      | some (JValue.str s) => Except.ok s
      | some _ => Except.error [ValErr.wrongType "Feature" "type"]
      | none => Except.error [ValErr.missingField "Feature" "type"]
    let loc ← getOptStrOrErr d "Feature" "location"
    let dims ← getOptDictOrErr d "Feature" "dimensions"
    let sh ← getOptStrOrErr d "Feature" "shape"
    let pos ← getOptStrOrErr d "Feature" "position"
    let diam ← getOptStrOrErr d "Feature" "diameter"
    Except.ok ⟨ty, loc, dims, sh, pos, diam⟩
  | _ => Except.error [ValErr.wrongType "Feature" "root"]

/-- The validated `CADObject` pydantic instance. -/
structure CADObject where
  base_shape : BaseShape
  features : List Feature

/-- Construction of `CADObject(**entries)`: `base_shape` must be a dict
validating as a `BaseShape`, `features` a list of dicts each validating as a
`Feature`. -/
def CADObject.fromFields (d : Dims) : Except (List ValErr) CADObject := do
  let bs ← match dictLookup d "base_shape" with
    | none => Except.error [ValErr.missingField "CADObject" "base_shape"]
    | some (JValue.obj bd) => BaseShape.fromFields bd
    | some _ => Except.error [ValErr.wrongType "CADObject" "base_shape"]
  let fs ← match dictLookup d "features" with
    | none => Except.error [ValErr.missingField "CADObject" "features"]
    | some (JValue.arr xs) => xs.mapM Feature.fromJ
    | some _ => Except.error [ValErr.wrongType "CADObject" "features"]
  Except.ok ⟨bs, fs⟩

/-- The composite validation applied to a decoded JSON mapping
(spec section 4.3 `validate_cad_object`); handling of non-mapping documents is
a concern of `validate_node`. -/
def CADObject.fromJson (v : JValue) : Except (List ValErr) CADObject :=
  match v with
  | JValue.obj entries => CADObject.fromFields entries
  | _ => Except.error [ValErr.wrongType "CADObject" "root"]

/-- Serialization of an optional string field by `model_dump`. -/
def optStrJ : Option String → JValue
  | none => JValue.null
  | some s => JValue.str s

/-- `Feature.model_dump()`: every declared field, in declaration order,
with `None` as `null`. -/
def Feature.dump (f : Feature) : JValue :=
  JValue.obj
    [("type", JValue.str f.type),
     ("location", optStrJ f.location),
     ("dimensions", match f.dimensions with
       | none => JValue.null
       | some d => JValue.obj d),
     ("shape", optStrJ f.shape),
     ("position", optStrJ f.position),
     ("diameter", optStrJ f.diameter)]

/-- `BaseShape.model_dump()`. -/
def BaseShape.dump (b : BaseShape) : JValue :=
  JValue.obj [("type", JValue.str b.type), ("dimensions", JValue.obj b.dimensions)]

/-- `CADObject.model_dump()`. -/
def CADObject.dump (c : CADObject) : JValue :=
  JValue.obj
    [("base_shape", BaseShape.dump c.base_shape),
     ("features", JValue.arr (c.features.map Feature.dump))]

/-- Python exception classes observable at the pipeline boundary. -/
inductive PyErr where
  | jsonDecodeError
  | validationError (errs : List ValErr)
  | typeError
  | unknownError
deriving DecidableEq

/-- Result of the `validate` node: success with the dumped object, a caught
failure (`json.JSONDecodeError`, `ValidationError`, `ValueError`), or an
uncaught exception (`TypeError` from `CADObject(**parsed)` when the decoded
document is not a dict). -/
inductive ValidateOutcome where
  | valid (cad_json : JValue)
  | invalid (error : PyErr)
  | raised (e : PyErr)

/-- The `validate_node` of `main.py`. -/
def validate_node (raw : String) : ValidateOutcome :=
  match json_loads raw with
  | none => ValidateOutcome.invalid PyErr.jsonDecodeError
  | some (JValue.obj entries) =>
    match CADObject.fromFields entries with
    | Except.ok cad => ValidateOutcome.valid (CADObject.dump cad)
    | Except.error es => ValidateOutcome.invalid (PyErr.validationError es)
  | some _ => ValidateOutcome.raised PyErr.typeError

/-- The externally observable pipeline record (the graph state fields a
caller branches on). -/
structure PipeRecord where
  cad_json : Option JValue
  valid : Option Bool
  error : Option PyErr
  note : Option String

/-- The `fallback_node` of `main.py`, merged with the `valid=False` already
set by the validate node in the graph state. -/
def fallback_node (stateError : Option PyErr) : PipeRecord :=
  { cad_json := none, valid := some false,
    error := some (stateError.getD PyErr.unknownError),
    note := some "Fallback used due to parsing/validation failure." }

/-- The validate-branch-fallback portion of the compiled graph, applied to the
raw candidate string: an uncaught exception propagates as `Except.error`. -/
def runPipeline (raw : String) : Except PyErr PipeRecord :=
  match validate_node raw with
  | ValidateOutcome.valid cj =>
    Except.ok { cad_json := some cj, valid := some true, error := none, note := none }
  | ValidateOutcome.invalid e => Except.ok (fallback_node (some e))
  | ValidateOutcome.raised e => Except.error e

/-- The error list of a validation outcome (`[]` on success). -/
def errorsOf {α : Type} : Except (List ValErr) α → List ValErr
  | Except.error es => es
  | Except.ok _ => []

/-- Whether an `Except` value is a success. -/
def isOkB {ε α : Type} : Except ε α → Bool
  | Except.ok _ => true
  | Except.error _ => false

/-- The `valid` field of a terminated pipeline run (`none` when an exception
escaped). -/
def pipeValid (r : Except PyErr PipeRecord) : Option Bool :=
  match r with
  | Except.ok rec => rec.valid
  | Except.error _ => none

/-- Whether a terminated pipeline run reported a non-null `cad_json`. -/
def pipeCadJsonSome (r : Except PyErr PipeRecord) : Bool :=
  match r with
  | Except.ok rec => rec.cad_json.isSome
  | Except.error _ => false

/-- The dumped base-shape dimension mapping of a pipeline run's `cad_json`. -/
def pipeBaseDims (r : Except PyErr PipeRecord) : Option Dims :=
  match r with
  | Except.ok rec =>
    match rec.cad_json with
    | some (JValue.obj entries) =>
      match dictLookup entries "base_shape" with
      | some (JValue.obj bs) =>
        match dictLookup bs "dimensions" with
        | some (JValue.obj d) => some d
        | _ => none
      | _ => none
    | _ => none
  | Except.error _ => none

/-- One field of the dumped base-shape dimensions of a pipeline run. -/
def pipeDimField (r : Except PyErr PipeRecord) (k : String) : Option JValue :=
  (pipeBaseDims r).bind (fun d => dictLookup d k)

/-- Modelled from the spec: a dimension string is representable as a
non-negative real number of millimetres when, after removing the `mm` suffix
and surrounding whitespace, it parses as a number that is not negative
(spec section 3, Dimension Value invariant). -/
def representableNonnegMm (s : String) : Bool :=
  match parsePyFloat (pyStrip (pyReplace s "mm" "")) with
  | some d => decide (0 ≤ d.mantissa)
  | none => false

/-- Concrete raw candidate: a circle given only a radius (plus thickness). -/
def rawCircleNoDiameter : String :=
  "\x7b\"base_shape\": \x7b\"type\": \"circle\", \"dimensions\": \x7b\"radius\": \"10mm\", \"thickness\": \"5mm\"\x7d\x7d, \"features\": []\x7d"

/-- Concrete raw candidate: a box whose dimensions carry an extra `color`
field. -/
def rawBoxExtraColor : String :=
  "\x7b\"base_shape\": \x7b\"type\": \"box\", \"dimensions\": \x7b\"width\": \"10mm\", \"height\": \"20mm\", \"depth\": \"30mm\", \"color\": \"red\"\x7d\x7d, \"features\": []\x7d"

/-- Concrete raw candidate: a fully valid box base shape together with one
feature entry that lacks the `type` field. -/
def rawValidBaseBadFeature : String :=
  "\x7b\"base_shape\": \x7b\"type\": \"box\", \"dimensions\": \x7b\"width\": \"10mm\", \"height\": \"20mm\", \"depth\": \"30mm\"\x7d\x7d, \"features\": [\x7b\"location\": \"center\"\x7d]\x7d"

/-- A minimal valid dimension mapping for every supported shape type: only
the fields the schema needs (for `circle`, whose required field alone does not
satisfy the radius-or-diameter invariant, the smallest valid mapping supplies
`diameter`). -/
def minimalDimsTable : List (String × Dims) :=
  [("rectangle",
    [("width", JValue.str "10mm"), ("height", JValue.str "20mm"),
     ("thickness", JValue.str "3mm")]),
   ("circle",
    [("diameter", JValue.str "20mm"), ("thickness", JValue.str "5mm")]),
   ("triangle",
    [("side_1", JValue.str "10mm"), ("side_2", JValue.str "10mm"),
     ("side_3", JValue.str "10mm"), ("thickness", JValue.str "3mm")]),
   ("polygon",
    [("number_of_sides", JValue.num ⟨6, 0⟩), ("side_length", JValue.str "10mm"),
     ("thickness", JValue.str "3mm")]),
   ("ellipse",
    [("major_axis", JValue.str "20mm"), ("minor_axis", JValue.str "10mm"),
     ("thickness", JValue.str "3mm")]),
   ("slot",
    [("length", JValue.str "30mm"), ("width", JValue.str "10mm"),
     ("corner_radius", JValue.str "5mm"), ("thickness", JValue.str "3mm")]),
   ("arc",
    [("radius", JValue.str "10mm"), ("angle", JValue.str "90"),
     ("thickness", JValue.str "3mm")]),
   ("box",
    [("width", JValue.str "10mm"), ("height", JValue.str "20mm"),
     ("depth", JValue.str "30mm")]),
   ("cylinder",
    [("diameter", JValue.str "10mm"), ("height", JValue.str "20mm")]),
   ("cone",
    [("base_diameter", JValue.str "20mm"), ("top_diameter", JValue.str "10mm"),
     ("height", JValue.str "30mm")]),
   ("sphere",
    [("diameter", JValue.str "10mm")]),
   ("torus",
    [("major_radius", JValue.str "20mm"), ("minor_radius", JValue.str "5mm")]),
   ("pyramid",
    [("base_shape", JValue.str "square"),
     ("base_dimensions", JValue.obj [("side_length", JValue.str "10mm")]),
     ("height", JValue.str "15mm")])]

/-- The minimal valid dimension mapping of a supported shape type. -/
def minimalDims (ty : String) : Dims :=
  (dictLookup minimalDimsTable ty).getD []

/-- The CAD object built from a shape type's minimal valid dimension mapping
and an empty feature list. -/
def minimalObject (ty : String) : CADObject :=
  ⟨⟨ty, minimalDims ty⟩, []⟩

/-- Replace every top-level string value of a dimension mapping by the
non-numeric string `"abc"` (non-string values such as `number_of_sides` and
`base_dimensions` are kept). -/
def garbleDims (d : Dims) : Dims :=
  d.map (fun p =>
    match p.2 with
    | JValue.str _ => (p.1, JValue.str "abc")
    | v => (p.1, v))

/-- Keys absent from a dict look up to nothing. -/
theorem dictLookup_eq_none_of_not_mem {α : Type} (l : List (String × α)) (k : String)
    (h : k ∉ l.map Prod.fst) : dictLookup l k = none := by
  induction l with
  | nil => rfl
  | cons p rest ih =>
    obtain ⟨k2, v⟩ := p
    simp only [List.map_cons, List.mem_cons, not_or] at h
    obtain ⟨h1, h2⟩ := h
    have hb : (k2 == k) = false := by
      simp only [beq_eq_false_iff_ne]
      exact fun e => h1 (e.symm)
    simp [dictLookup, hb, ih h2]

/-- A dict never contains an absent key. -/
theorem dictLookup_of_containsKeyB_false {α : Type} (l : List (String × α)) (k : String)
    (h : containsKeyB l k = false) : dictLookup l k = none := by
  induction l with
  | nil => rfl
  | cons p rest ih =>
    obtain ⟨k2, v⟩ := p
    simp only [containsKeyB, List.any_cons, Bool.or_eq_false_iff] at h
    obtain ⟨h1, h2⟩ := h
    simp [dictLookup, h1, ih h2]

/-- A contained key looks up to some value. -/
theorem containsKeyB_exists {α : Type} (l : List (String × α)) (k : String)
    (h : containsKeyB l k = true) : ∃ v, dictLookup l k = some v := by
  induction l with
  | nil => simp [containsKeyB] at h
  | cons p rest ih =>
    obtain ⟨k2, v⟩ := p
    by_cases hb : (k2 == k) = true
    · exact ⟨v, by simp [dictLookup, hb]⟩
    · have hb' : (k2 == k) = false := by
        cases hcase : (k2 == k) with
        | false => rfl
        | true => exact absurd hcase hb
      simp only [containsKeyB, List.any_cons, hb', Bool.false_or] at h
      obtain ⟨w, hw⟩ := ih h
      exact ⟨w, by simp [dictLookup, hb', hw]⟩

/-- Erasing a key removes it. -/
theorem dictLookup_erase_self {α : Type} (l : List (String × α)) (k : String) :
    dictLookup (dictErase l k) k = none := by
  simp only [dictErase]
  induction l with
  | nil => rfl
  | cons p rest ih =>
    obtain ⟨k2, v⟩ := p
    cases hb : (k2 == k) with
    | true => simpa [List.filter_cons, hb] using ih
    | false => simpa [List.filter_cons, hb, dictLookup] using ih

/-- Erasing one key leaves the others unchanged. -/
theorem dictLookup_erase_ne {α : Type} (l : List (String × α)) (k k' : String)
    (h : k' ≠ k) : dictLookup (dictErase l k) k' = dictLookup l k' := by
  simp only [dictErase]
  induction l with
  | nil => rfl
  | cons p rest ih =>
    obtain ⟨k2, v⟩ := p
    cases hb : (k2 == k) with
    | true =>
      have hk2 : k2 = k := by simpa [beq_iff_eq] using hb
      have hb2 : (k2 == k') = false := by
        simp only [beq_eq_false_iff_ne]
        exact fun e => h (by rw [← e, hk2])
      simp [List.filter_cons, hb, dictLookup, hb2, ih]
    | false =>
      cases hb2 : (k2 == k') with
      | true => simp [List.filter_cons, hb, dictLookup, hb2]
      | false => simp [List.filter_cons, hb, dictLookup, hb2, ih]

/-- Lookup in a concatenation prefers the left dict. -/
theorem dictLookup_append_some {α : Type} (a b : List (String × α)) (k : String) (v : α)
    (h : dictLookup a k = some v) : dictLookup (a ++ b) k = some v := by
  induction a with
  | nil => simp [dictLookup] at h
  | cons p rest ih =>
    obtain ⟨k2, w⟩ := p
    cases hb : (k2 == k) with
    | true =>
      simp only [dictLookup, hb, if_true] at h
      simp [dictLookup, hb, h]
    | false =>
      simp only [dictLookup, hb, Bool.false_eq_true, if_false] at h
      simp only [List.cons_append, dictLookup, hb, Bool.false_eq_true, if_false]
      exact ih h

/-- Lookup in a concatenation falls through to the right dict. -/
theorem dictLookup_append_none {α : Type} (a b : List (String × α)) (k : String)
    (h : dictLookup a k = none) : dictLookup (a ++ b) k = dictLookup b k := by
  induction a with
  | nil => rfl
  | cons p rest ih =>
    obtain ⟨k2, w⟩ := p
    cases hb : (k2 == k) with
    | true => simp [dictLookup, hb] at h
    | false =>
      simp only [dictLookup, hb, Bool.false_eq_true, if_false] at h
      simp only [List.cons_append, dictLookup, hb, Bool.false_eq_true, if_false]
      exact ih h

/-- Claim C5: validating a base shape whose `type` is not one of the
thirteen supported shape types fails with an error naming the offending type
string; it is never silently defaulted to some shape. -/
theorem claimC5_unsupported_shape (ty : String) (dims : Dims)
    (h : ty ∉ supportedShapeNames) :
    BaseShape.validate_shape ty dims = Except.error [ValErr.unsupportedShape ty] := by
  have hl : dictLookup shape_schemas ty = none :=
    dictLookup_eq_none_of_not_mem shape_schemas ty (by simpa [supportedShapeNames] using h)
  simp [BaseShape.validate_shape, hl]

/-- Witness for C5 at the concrete unknown type `dodecahedron`. -/
theorem claimC5_witness :
    "dodecahedron" ∉ supportedShapeNames ∧
      BaseShape.validate_shape "dodecahedron" [("width", JValue.str "10mm")] =
        Except.error [ValErr.unsupportedShape "dodecahedron"] :=
  ⟨by decide, claimC5_unsupported_shape "dodecahedron" [("width", JValue.str "10mm")] (by decide)⟩

/-- Claim C4: for every supported shape type, omitting any one required field
from that shape's minimal valid dimension mapping makes validation fail, with
the single validation error naming exactly the missing field. -/
theorem claimC4_missing_required_field :
    ∀ ty ∈ supportedShapeNames, ∀ f ∈ requiredFieldNames ty,
      isOkB (BaseShape.validate_shape ty (dictErase (minimalDims ty) f)) = false ∧
        errorsOf (BaseShape.validate_shape ty (dictErase (minimalDims ty) f)) =
          [ValErr.missingField ty f] := by decide

/-- Witness for C4 at the concrete shape `rectangle` missing `width`. -/
theorem claimC4_witness :
    "rectangle" ∈ supportedShapeNames ∧ "width" ∈ requiredFieldNames "rectangle" ∧
      isOkB (BaseShape.validate_shape "rectangle"
          (dictErase (minimalDims "rectangle") "width")) = false ∧
      errorsOf (BaseShape.validate_shape "rectangle"
          (dictErase (minimalDims "rectangle") "width")) =
        [ValErr.missingField "rectangle" "width"] :=
  ⟨by decide, by decide,
   claimC4_missing_required_field "rectangle" (by decide) "width" (by decide)⟩

/-- Counterexample to claim C1: a box dimension mapping with an extra
`color` field validates successfully (pydantic's default config silently
ignores unknown fields), and the pipeline reports `valid = true` with a
non-null `cad_json` that still carries the extra field. -/
theorem claimC1_counterexample :
    isOkB (BaseShape.validate_shape "box"
        (minimalDims "box" ++ [("color", JValue.str "red")])) = true ∧
    pipeValid (runPipeline rawBoxExtraColor) = some true ∧
    pipeCadJsonSome (runPipeline rawBoxExtraColor) = true ∧
    pipeDimField (runPipeline rawBoxExtraColor) "color" = some (JValue.str "red") :=
  ⟨rfl, rfl, rfl, rfl⟩

/-- Claim C1 as amended: for every supported shape type, adding one
unrecognized `color` field to the minimal valid dimension mapping still
validates successfully, the unknown field being ignored by the schema check
and retained verbatim in the stored dimensions. -/
theorem claimC1_amended (ty : String) (h : ty ∈ supportedShapeNames) :
    BaseShape.validate_shape ty (minimalDims ty ++ [("color", JValue.str "red")]) =
      Except.ok ⟨ty, minimalDims ty ++ [("color", JValue.str "red")]⟩ := by
  fin_cases h <;> rfl

/-- Witness for the amended C1 at the concrete shape `box`. -/
theorem claimC1_witness :
    "box" ∈ supportedShapeNames ∧
      BaseShape.validate_shape "box" (minimalDims "box" ++ [("color", JValue.str "red")]) =
        Except.ok ⟨"box", minimalDims "box" ++ [("color", JValue.str "red")]⟩ :=
  ⟨by decide, claimC1_amended "box" (by decide)⟩

/-- Counterexample to claim C2: for the circle given only
`radius = "10mm"`, the pipeline validates successfully but its reported
dimensions contain no `diameter` field at all — in particular the reported
diameter is not `"20mm"`. -/
theorem claimC2_counterexample :
    pipeValid (runPipeline rawCircleNoDiameter) = some true ∧
    pipeDimField (runPipeline rawCircleNoDiameter) "diameter" = none ∧
    ¬ pipeDimField (runPipeline rawCircleNoDiameter) "diameter" =
        some (JValue.str "20mm") :=
  ⟨rfl, rfl, fun h => Option.noConfusion ((rfl :
    pipeDimField (runPipeline rawCircleNoDiameter) "diameter" = none) ▸ h)⟩

/-- Claim C2 as amended: the radius-only circle mapping validates
successfully; inside the (immediately discarded) `CircleDimensions` instance
the diameter is derived as two times the radius, formatted by Python float
formatting as `"20.0mm"`; the pipeline reports `valid = true`, but its
reported dimension mapping is the original one — radius and thickness only,
with no `diameter` field. -/
theorem claimC2_amended :
    CircleDimensions.validate
        [("radius", JValue.str "10mm"), ("thickness", JValue.str "5mm")] =
      Except.ok ⟨some "20.0mm", some "10mm", "5mm"⟩ ∧
    pipeValid (runPipeline rawCircleNoDiameter) = some true ∧
    pipeBaseDims (runPipeline rawCircleNoDiameter) =
      some [("radius", JValue.str "10mm"), ("thickness", JValue.str "5mm")] ∧
    pipeDimField (runPipeline rawCircleNoDiameter) "diameter" = none :=
  ⟨rfl, rfl, rfl, rfl⟩

/-- Counterexample to claim C3: a rectangle whose `width` is the non-numeric
string `"abc"` passes schema validation unchanged, yet `"abc"` is not
representable as a non-negative number of millimetres; likewise a negative
measurement `"-5mm"` is accepted. -/
theorem claimC3_counterexample :
    BaseShape.validate_shape "rectangle"
        [("width", JValue.str "abc"), ("height", JValue.str "5mm"),
         ("thickness", JValue.str "3mm")] =
      Except.ok ⟨"rectangle",
        [("width", JValue.str "abc"), ("height", JValue.str "5mm"),
         ("thickness", JValue.str "3mm")]⟩ ∧
    representableNonnegMm "abc" = false ∧
    isOkB (BaseShape.validate_shape "rectangle"
        [("width", JValue.str "-5mm"), ("height", JValue.str "5mm"),
         ("thickness", JValue.str "3mm")]) = true ∧
    representableNonnegMm "-5mm" = false :=
  ⟨rfl, rfl, rfl, rfl⟩

/-- Claim C3 as amended: passing schema validation does not guarantee that
stored dimension values are representable as non-negative millimetre numbers.
For every supported shape type, the minimal valid mapping with all its
measurement strings replaced by the non-numeric `"abc"` still validates, with
the values stored as given; the one numeric parse in schema validation is the
circle's radius derivation — it runs exactly when `diameter` is absent and
`radius` present, and there it does reject an unparseable radius, while a
supplied circle `diameter` is stored unparsed. -/
theorem claimC3_amended :
    (∀ ty ∈ supportedShapeNames,
      BaseShape.validate_shape ty (garbleDims (minimalDims ty)) =
        Except.ok ⟨ty, garbleDims (minimalDims ty)⟩) ∧
    representableNonnegMm "abc" = false ∧
    CircleDimensions.validate
        [("radius", JValue.str "abc"), ("thickness", JValue.str "5mm")] =
      Except.error [ValErr.valueError "Could not parse radius value"] ∧
    CircleDimensions.validate
        [("diameter", JValue.str "abc"), ("thickness", JValue.str "5mm")] =
      Except.ok ⟨some "abc", none, "5mm"⟩ := by
  refine ⟨?_, rfl, rfl, rfl⟩
  intro ty h
  fin_cases h <;> rfl

/-- Witness for the amended C3 at the concrete shape `rectangle`. -/
theorem claimC3_witness :
    "rectangle" ∈ supportedShapeNames ∧
    BaseShape.validate_shape "rectangle" (garbleDims (minimalDims "rectangle")) =
      Except.ok ⟨"rectangle", garbleDims (minimalDims "rectangle")⟩ :=
  ⟨by decide, claimC3_amended.1 "rectangle" (by decide)⟩

/-- Claim C6: normalization renames `extrusion` to `thickness` exactly when
`extrusion` is present and `thickness` absent (the value moves, `extrusion`
disappears, every other key is untouched), leaves the mapping unchanged
otherwise, and the rectangle example with an `extrusion` key normalizes as
claimed and validates successfully. -/
theorem claimC6_normalize (d : Dims) :
    (containsKeyB d "extrusion" = true → containsKeyB d "thickness" = false →
      dictLookup (normalize_field_names d) "thickness" = dictLookup d "extrusion" ∧
      dictLookup (normalize_field_names d) "extrusion" = none ∧
      ∀ k, k ≠ "extrusion" → k ≠ "thickness" →
        dictLookup (normalize_field_names d) k = dictLookup d k) ∧
    (¬(containsKeyB d "extrusion" = true ∧ containsKeyB d "thickness" = false) →
      normalize_field_names d = d) ∧
    BaseShape.validate_shape "rectangle"
        [("extrusion", JValue.str "3mm"), ("width", JValue.str "10mm"),
         ("height", JValue.str "10mm")] =
      Except.ok ⟨"rectangle",
        [("width", JValue.str "10mm"), ("height", JValue.str "10mm"),
         ("thickness", JValue.str "3mm")]⟩ := by
  refine ⟨?_, ?_, rfl⟩
  · intro hex hth
    obtain ⟨v, hv⟩ := containsKeyB_exists d "extrusion" hex
    have hn : normalize_field_names d =
        dictErase d "extrusion" ++
          [("thickness", (dictLookup d "extrusion").getD JValue.null)] := by
      unfold normalize_field_names
      rw [if_pos (by rw [hex, hth]; rfl)]
    have hthNone : dictLookup d "thickness" = none :=
      dictLookup_of_containsKeyB_false d "thickness" hth
    have heraseTh : dictLookup (dictErase d "extrusion") "thickness" = none := by
      rw [dictLookup_erase_ne d "extrusion" "thickness" (by decide)]
      exact hthNone
    refine ⟨?_, ?_, ?_⟩
    · rw [hn, dictLookup_append_none _ _ _ heraseTh, hv]
      rfl
    · rw [hn, dictLookup_append_none _ _ _ (dictLookup_erase_self d "extrusion")]
      rfl
    · intro k hk1 hk2
      rw [hn]
      cases hcase : dictLookup d k with
      | some w =>
        have : dictLookup (dictErase d "extrusion") k = some w := by
          rw [dictLookup_erase_ne d "extrusion" k hk1]; exact hcase
        rw [dictLookup_append_some _ _ _ _ this]
      | none =>
        have : dictLookup (dictErase d "extrusion") k = none := by
          rw [dictLookup_erase_ne d "extrusion" k hk1]; exact hcase
        rw [dictLookup_append_none _ _ _ this]
        have hb : ("thickness" == k) = false := by
          simp only [beq_eq_false_iff_ne]
          exact fun e => hk2 e.symm
        simp [dictLookup, hb]
  · intro hcnd
    unfold normalize_field_names
    rw [if_neg]
    intro hcontra
    rw [Bool.and_eq_true, Bool.not_eq_true'] at hcontra
    exact hcnd hcontra

/-- Witness for C6: a renaming instance and an untouched instance. -/
theorem claimC6_witness :
    dictLookup (normalize_field_names [("extrusion", JValue.str "3mm")]) "thickness" =
      dictLookup [("extrusion", JValue.str "3mm")] "extrusion" ∧
    normalize_field_names [("width", JValue.str "1mm")] = [("width", JValue.str "1mm")] :=
  ⟨((claimC6_normalize [("extrusion", JValue.str "3mm")]).1 rfl rfl).1,
   (claimC6_normalize [("width", JValue.str "1mm")]).2.1 (by decide)⟩

/-- Counterexample to claim C7: the raw candidate `"null"` decodes
successfully but is not a JSON object, so it fails composite validation —
yet instead of reaching the fallback state, the pipeline raises an uncaught
`TypeError` (from `CADObject(**parsed)`) to the caller. -/
theorem claimC7_counterexample :
    json_loads "null" = some JValue.null ∧
    runPipeline "null" = Except.error PyErr.typeError :=
  ⟨rfl, rfl⟩

/-- Claim C7 as amended: a raw candidate that is not valid JSON, or that
decodes to a JSON object failing composite validation, routes to the fallback
terminal record — `cad_json = null`, the fixed note, and the carried error —
without raising; only documents decoding to a non-object escape as a
`TypeError`. -/
theorem claimC7_amended (raw : String) :
    (json_loads raw = none →
      runPipeline raw = Except.ok (fallback_node (some PyErr.jsonDecodeError))) ∧
    (∀ entries es, json_loads raw = some (JValue.obj entries) →
      CADObject.fromFields entries = Except.error es →
      runPipeline raw = Except.ok (fallback_node (some (PyErr.validationError es)))) := by
  constructor
  · intro h
    simp [runPipeline, validate_node, h]
  · intro entries es h1 h2
    simp [runPipeline, validate_node, h1, h2]

/-- Witness for the amended C7: a non-JSON candidate and a JSON object
failing validation both produce the fallback record. -/
theorem claimC7_witness :
    runPipeline "nope" = Except.ok (fallback_node (some PyErr.jsonDecodeError)) ∧
    runPipeline "\x7b\x7d" =
      Except.ok (fallback_node (some (PyErr.validationError
        [ValErr.missingField "CADObject" "base_shape"]))) :=
  ⟨(claimC7_amended "nope").1 rfl,
   (claimC7_amended "\x7b\x7d").2 [] [ValErr.missingField "CADObject" "base_shape"] rfl rfl⟩

/-- Claim C8: for every supported shape type, the CAD object built from the
minimal valid dimension mapping validates successfully, and re-validating its
serialized (`model_dump`) form yields an equal object. -/
theorem claimC8_roundtrip (ty : String) (h : ty ∈ supportedShapeNames) :
    isOkB (BaseShape.validate_shape ty (minimalDims ty)) = true ∧
    CADObject.fromJson (CADObject.dump (minimalObject ty)) =
      Except.ok (minimalObject ty) := by
  fin_cases h <;> exact ⟨rfl, rfl⟩

/-- Witness for C8 at the concrete shape `rectangle`. -/
theorem claimC8_witness :
    "rectangle" ∈ supportedShapeNames ∧
    isOkB (BaseShape.validate_shape "rectangle" (minimalDims "rectangle")) = true ∧
    CADObject.fromJson (CADObject.dump (minimalObject "rectangle")) =
      Except.ok (minimalObject "rectangle") :=
  ⟨by decide, claimC8_roundtrip "rectangle" (by decide)⟩

/-- Claim C9: when a circle mapping supplies both `radius` and a non-empty
`diameter`, validation succeeds with both values accepted exactly as given
and no consistency check between them. -/
theorem claimC9_both_radius_and_diameter (r d t : String) (hd : d ≠ "") :
    CircleDimensions.validate
        [("radius", JValue.str r), ("diameter", JValue.str d),
         ("thickness", JValue.str t)] =
      Except.ok ⟨some d, some r, t⟩ := by
  show CircleDimensions.check_radius_or_diameter ⟨some d, some r, t⟩ =
    Except.ok ⟨some d, some r, t⟩
  have hb : (d == "") = false := by
    simp only [beq_eq_false_iff_ne]
    exact hd
  simp [CircleDimensions.check_radius_or_diameter, truthyOpt, hb]

/-- Witness for C9 at the inconsistent pair `radius = "10mm"`,
`diameter = "50mm"`. -/
theorem claimC9_witness :
    ("50mm" : String) ≠ "" ∧
    CircleDimensions.validate
        [("radius", JValue.str "10mm"), ("diameter", JValue.str "50mm"),
         ("thickness", JValue.str "5mm")] =
      Except.ok ⟨some "50mm", some "10mm", "5mm"⟩ :=
  ⟨by decide, claimC9_both_radius_and_diameter "10mm" "50mm" "5mm" (by decide)⟩

/-- Claim C10: a feature entry lacking `type` fails `Feature` validation
(and with a fully valid base shape the whole pipeline still falls back),
while `type` alone suffices — every other feature field defaults to absent. -/
theorem claimC10_feature_requires_type :
    Feature.fromJ (JValue.obj []) = Except.error [ValErr.missingField "Feature" "type"] ∧
    Feature.fromJ (JValue.obj [("location", JValue.str "center")]) =
      Except.error [ValErr.missingField "Feature" "type"] ∧
    (∀ t : String, Feature.fromJ (JValue.obj [("type", JValue.str t)]) =
      Except.ok ⟨t, none, none, none, none, none⟩) ∧
    isOkB (BaseShape.validate_shape "box" (minimalDims "box")) = true ∧
    runPipeline rawValidBaseBadFeature =
      Except.ok (fallback_node (some (PyErr.validationError
        [ValErr.missingField "Feature" "type"]))) :=
  ⟨rfl, rfl, fun _ => rfl, rfl, rfl⟩
